import Mathlib

/-!
# Verification of the sun-stop-timer server-side timer state machine

Shallow embedding of the timer core of `src/server.js` (the mutable `state`
object, `clearTimer`, `tick`, and the socket command handlers `set-time`,
`start`, `pause`, `stop`, `set-mode`, `set-and-start`), together with proofs
of the specified properties.

Modelling conventions:
* `state.timeLeft` and timestamps (`Date.now()` values, in milliseconds) are
  integers (`Int`); command payloads arrive as JavaScript values, modelled by
  `JsValue`, whose finite numbers carry a rational (`ℚ`) so that the
  `Math.round` behaviour on non-integer inputs is captured exactly.
* `Math.round q` is `⌊q + 1/2⌋` (JavaScript rounds exact halves toward +∞).
* `Math.floor ((now - lastTick) / 1000)` is integer floor division `Int.fdiv`.
* The module-level `timerInterval` handle is modelled by the Boolean field
  `scheduled`: `true` exactly when a tick timeout is pending.  `clearTimeout`
  followed by `timerInterval = null` sets it to `false`; `setTimeout(tick,200)`
  sets it to `true`; a timeout can only fire while it is pending, and firing
  consumes it.  Since the process is single-threaded and every overwrite of
  `timerInterval` in the source is preceded by `clearTimer`, guarded by
  `!timerInterval`, or replaces the handle of the timeout that just fired,
  at most one timeout is ever pending, so one Boolean is a faithful model.
* Each handler returns the new state together with a Boolean that is `true`
  exactly when the handler broadcasts a `timer-update` snapshot (`io.emit`).
-/

namespace SunStopTimer

/-- The `status` field of the timer state: `'IDLE' | 'RUNNING' | 'PAUSED' | 'FINISHED'`. -/
inductive Status
  | IDLE
  | RUNNING
  | PAUSED
  | FINISHED
deriving DecidableEq, Repr

/-- The `overtimeMode` field: `'COUNT_UP' | 'STOP'`. -/
inductive OvertimeMode
  | COUNT_UP
  | STOP
deriving DecidableEq, Repr

/-- The server-side timer state (`state` in `server.js`) plus the scheduling
flag modelling the `timerInterval` handle. -/
structure TimerState where
  timeLeft : Int
  status : Status
  overtimeMode : OvertimeMode
  lastTick : Int
  scheduled : Bool
deriving DecidableEq, Repr

/-- The state created at process start:
`{ timeLeft: 0, status: 'IDLE', overtimeMode: 'COUNT_UP', lastTick: Date.now() }`
with `timerInterval = null`.  `t0` is the value of `Date.now()` at startup. -/
def initialState (t0 : Int) : TimerState :=
  { timeLeft := 0
    status := Status.IDLE
    overtimeMode := OvertimeMode.COUNT_UP
    lastTick := t0
    scheduled := false }

/-- A JavaScript value arriving as a socket command payload.  `num q` is a
finite number; `nan`, `inf`, `negInf` are the non-finite numbers (they pass
`typeof x === 'number'` but fail `Number.isFinite`); the remaining
constructors are the non-number types. -/
inductive JsValue
  | num (q : ℚ)
  | nan
  | inf
  | negInf
  | str (s : String)
  | boolv (b : Bool)
  | nullv
  | undef
  | obj
deriving DecidableEq

/-- JavaScript `Math.round`: nearest integer, exact halves toward +∞. -/
def jsRound (q : ℚ) : Int := ⌊q + 1 / 2⌋

/-- `Math.max(-5999, Math.min(5999, n))`. -/
def clampSeconds (n : Int) : Int := max (-5999) (min 5999 n)

/-- The `set-time` handler.  The guard
`typeof seconds !== 'number' || !Number.isFinite(seconds)` admits exactly the
finite numbers (`JsValue.num`); every other payload is dropped with no state
change and no broadcast.  On a finite number it clamps and rounds, sets
`status = 'IDLE'`, calls `clearTimer()`, and broadcasts. -/
def setTime (s : TimerState) (v : JsValue) : TimerState × Bool :=
  match v with
  | JsValue.num q =>
      ({ s with
          timeLeft := clampSeconds (jsRound q)
          status := Status.IDLE
          scheduled := false }, true)
  | _ => (s, false)

/-- The `start` handler: guarded by
`state.status !== 'RUNNING' && (state.timeLeft !== 0 || state.status === 'PAUSED')`;
when the guard passes it sets `status = 'RUNNING'`, `lastTick = now`, arms the
tick timeout if none is pending (`if (!timerInterval) ...`), and broadcasts;
otherwise it does nothing. -/
def start (s : TimerState) (now : Int) : TimerState × Bool :=
  if s.status ≠ Status.RUNNING ∧ (s.timeLeft ≠ 0 ∨ s.status = Status.PAUSED) then
    ({ s with
        status := Status.RUNNING
        lastTick := now
        scheduled := if s.scheduled then s.scheduled else true }, true)
  else (s, false)

/-- The `pause` handler: unconditionally sets `status = 'PAUSED'`, calls
`clearTimer()`, and broadcasts. -/
def pause (s : TimerState) : TimerState × Bool :=
  ({ s with status := Status.PAUSED, scheduled := false }, true)

/-- The `stop` handler: unconditionally sets `status = 'IDLE'`,
`timeLeft = 0`, calls `clearTimer()`, and broadcasts. -/
def stop (s : TimerState) : TimerState × Bool :=
  ({ s with status := Status.IDLE, timeLeft := 0, scheduled := false }, true)

/-- The `set-mode` handler: drops any payload other than the strings
`'COUNT_UP'` and `'STOP'`; on a valid payload it sets `overtimeMode` and
broadcasts. -/
def setMode (s : TimerState) (v : JsValue) : TimerState × Bool :=
  if v = JsValue.str "COUNT_UP" then
    ({ s with overtimeMode := OvertimeMode.COUNT_UP }, true)
  else if v = JsValue.str "STOP" then
    ({ s with overtimeMode := OvertimeMode.STOP }, true)
  else (s, false)

/-- The `set-and-start` handler: same payload guard and clamp/round as
`set-time`, then `status = 'RUNNING'`, `lastTick = now`, `clearTimer()`
followed by `setTimeout(tick, 200)`, and one broadcast. -/
def setAndStart (s : TimerState) (v : JsValue) (now : Int) : TimerState × Bool :=
  match v with
  | JsValue.num q =>
      ({ s with
          timeLeft := clampSeconds (jsRound q)
          status := Status.RUNNING
          lastTick := now
          scheduled := true }, true)
  | _ => (s, false)

/-- The `tick` function, invoked when the pending timeout fires (which
consumes it, hence `scheduled := false` first).  If the status is not
`'RUNNING'` it returns at once.  Otherwise it computes
`elapsed = Math.floor((now - lastTick) / 1000)`; when `elapsed >= 1` it
decrements `timeLeft`, updates `lastTick`, transitions to `'FINISHED'` with
`timeLeft = 0` and `clearTimer()` when `timeLeft <= 0 && overtimeMode === 'STOP'`,
and broadcasts.  Finally, if still `'RUNNING'`, it re-arms the timeout. -/
def tick (s : TimerState) (now : Int) : TimerState × Bool :=
  let s0 : TimerState := { s with scheduled := false }
  if s0.status ≠ Status.RUNNING then (s0, false)
  else
    let elapsed : Int := (now - s0.lastTick).fdiv 1000
    let p : TimerState × Bool :=
      if 1 ≤ elapsed then
        let s1 : TimerState := { s0 with timeLeft := s0.timeLeft - elapsed, lastTick := now }
        let s2 : TimerState :=
          if s1.timeLeft ≤ 0 ∧ s1.overtimeMode = OvertimeMode.STOP then
            { s1 with status := Status.FINISHED, timeLeft := 0, scheduled := false }
          else s1
        (s2, true)
      else (s0, false)
    if p.1.status = Status.RUNNING then ({ p.1 with scheduled := true }, p.2) else p

/-- One inbound event: a socket command with its payload, or the firing of the
scheduled tick timeout. -/
inductive Event
  | setTime (v : JsValue)
  | start
  | pause
  | stop
  | setMode (v : JsValue)
  | setAndStart (v : JsValue)
  | tickFire
deriving DecidableEq

/-- Dispatch one event at wall-clock instant `now`, returning the new state
and whether a `timer-update` snapshot was broadcast. -/
def step (s : TimerState) (e : Event) (now : Int) : TimerState × Bool :=
  match e with
  | Event.setTime v => setTime s v
  | Event.start => start s now
  | Event.pause => pause s
  | Event.stop => stop s
  | Event.setMode v => setMode s v
  | Event.setAndStart v => setAndStart s v now
  | Event.tickFire => tick s now

/-- States reachable from process start by any sequence of commands and tick
firings, at arbitrary wall-clock instants.  A `tickFire` event can only occur
while a timeout is pending. -/
inductive Reachable : TimerState → Prop
  | init (t0 : Int) : Reachable (initialState t0)
  | next (s : TimerState) (e : Event) (now : Int) :
      Reachable s → (e = Event.tickFire → s.scheduled = true) →
      Reachable (step s e now).1

/-- `true` exactly on payloads that pass the handlers' guard
`typeof x === 'number' && Number.isFinite(x)`. -/
def isFiniteNumber : JsValue → Bool
  | JsValue.num _ => true
  | _ => false

/-! ## Helper lemmas -/

/-- Updating `scheduled` to `true` is the identity on a state whose
`scheduled` field is already `true`. -/
lemma set_scheduled_true_eq (s : TimerState) (hs : s.scheduled = true) :
    { s with scheduled := true } = s := by
  obtain ⟨a, b, c, d, e⟩ := s
  simp only at hs
  rw [hs]

/-- Closed form of `tick` on a `RUNNING` state. -/
lemma tick_eq (s : TimerState) (now : Int) (hr : s.status = Status.RUNNING) :
    tick s now =
      if 1 ≤ (now - s.lastTick).fdiv 1000 then
        if s.timeLeft - (now - s.lastTick).fdiv 1000 ≤ 0 ∧
            s.overtimeMode = OvertimeMode.STOP then
          ({ s with timeLeft := 0, status := Status.FINISHED, lastTick := now, scheduled := false }, true)
        else
          ({ s with timeLeft := s.timeLeft - (now - s.lastTick).fdiv 1000, lastTick := now, scheduled := true }, true)
      else ({ s with scheduled := true }, false) := by
  by_cases h1 : 1 ≤ (now - s.lastTick).fdiv 1000
  · by_cases h2 : s.timeLeft - (now - s.lastTick).fdiv 1000 ≤ 0 ∧
        s.overtimeMode = OvertimeMode.STOP
    · simp [tick, hr, h1, h2]
    · have h2' : ¬(s.timeLeft ≤ (now - s.lastTick).fdiv 1000 ∧
          s.overtimeMode = OvertimeMode.STOP) := by
        simpa [sub_nonpos] using h2
      simp [tick, hr, h1, h2']
  · simp [tick, hr, h1]

/-! ## Claim theorems -/

/-- C3: for every finite number `q` and every starting state, `setTime q`
yields `remainingSeconds = clamp (round q) (-5999) 5999`, `status = IDLE`, a
cancelled tick, and a broadcast snapshot. -/
theorem setTime_spec (s : TimerState) (q : ℚ) :
    (setTime s (JsValue.num q)).1.timeLeft = max (-5999) (min 5999 (jsRound q)) ∧
    (setTime s (JsValue.num q)).1.status = Status.IDLE ∧
    (setTime s (JsValue.num q)).1.scheduled = false ∧
    (setTime s (JsValue.num q)).2 = true := by
  exact ⟨rfl, rfl, rfl, rfl⟩

/-- C5: for every finite number `q` and every starting state, `setAndStart q`
is one atomic transition to `remainingSeconds = clamp (round q) (-5999) 5999`,
`status = RUNNING`, `lastTickTimestamp = now`, with a tick scheduled; exactly
one snapshot is emitted and it already shows `RUNNING` (no intermediate IDLE
snapshot exists, as the step is atomic); in particular `setAndStart 90` yields
`status = RUNNING` and `remainingSeconds = 90`. -/
theorem setAndStart_spec (s : TimerState) (q : ℚ) (now : Int) :
    (setAndStart s (JsValue.num q) now).1 =
      { s with timeLeft := max (-5999) (min 5999 (jsRound q)),
               status := Status.RUNNING, lastTick := now, scheduled := true } ∧
    (setAndStart s (JsValue.num q) now).2 = true ∧
    (setAndStart s (JsValue.num q) now).1.status = Status.RUNNING ∧
    (setAndStart s (JsValue.num 90) now).1.status = Status.RUNNING ∧
    (setAndStart s (JsValue.num 90) now).1.timeLeft = 90 := by
  refine ⟨rfl, rfl, rfl, rfl, ?_⟩
  show max (-5999) (min 5999 (jsRound 90)) = 90
  norm_num [jsRound]

/-- C8: `pause` is idempotent — applying it twice from any starting state
yields exactly the state (all four fields and the scheduling flag) that one
application yields. -/
theorem pause_idem (s : TimerState) :
    (pause (pause s).1).1 = (pause s).1 := rfl

/-- C10: `Math.round` resolves exact half-integer ties toward +∞: for every
integer `k`, storing `k + 1/2` via `setTime` yields the clamp of `k + 1`; in
particular `2.5` is stored as `3` and `-2.5` as `-2`, not `-3`. -/
theorem setTime_round_half_up (s : TimerState) (k : Int) :
    (setTime s (JsValue.num ((k : ℚ) + 1 / 2))).1.timeLeft =
      max (-5999) (min 5999 (k + 1)) ∧
    (setTime s (JsValue.num (5 / 2))).1.timeLeft = 3 ∧
    (setTime s (JsValue.num (-(5 / 2)))).1.timeLeft = -2 := by
  refine ⟨?_, ?_, ?_⟩
  · show max (-5999) (min 5999 (jsRound ((k : ℚ) + 1 / 2))) = _
    have h : jsRound ((k : ℚ) + 1 / 2) = k + 1 := by
      unfold jsRound
      have he : ((k : ℚ) + 1 / 2) + 1 / 2 = ((k + 1 : Int) : ℚ) := by
        push_cast
        ring
      rw [he, Int.floor_intCast]
    rw [h]
  · show max (-5999) (min 5999 (jsRound (5 / 2))) = 3
    norm_num [jsRound]
  · show max (-5999) (min 5999 (jsRound (-(5 / 2)))) = -2
    norm_num [jsRound]

/-- C1: on a `RUNNING` state with its tick pending, a tick firing at instant
`now` computes `elapsed = ⌊(now - lastTick) / 1000⌋`; when `elapsed ≥ 1` it
sets `lastTick = now`, emits a snapshot, decrements `timeLeft` by `elapsed`,
and — exactly when the decremented value is `≤ 0` with `overtimeMode = STOP` —
transitions to `FINISHED`, clamps `timeLeft` to `0` and cancels scheduling;
when `elapsed < 1` the state is unchanged and no snapshot is emitted; in
`COUNT_UP` mode `timeLeft` keeps decreasing (below zero when elapsed exceeds
it) and the status stays `RUNNING`. -/
theorem tick_running_spec (s : TimerState) (now : Int)
    (hr : s.status = Status.RUNNING) (hs : s.scheduled = true) :
    (1 ≤ (now - s.lastTick).fdiv 1000 →
      (tick s now).1.lastTick = now ∧ (tick s now).2 = true ∧
      (s.timeLeft - (now - s.lastTick).fdiv 1000 ≤ 0 ∧
          s.overtimeMode = OvertimeMode.STOP →
        (tick s now).1.status = Status.FINISHED ∧ (tick s now).1.timeLeft = 0 ∧
        (tick s now).1.scheduled = false) ∧
      (¬(s.timeLeft - (now - s.lastTick).fdiv 1000 ≤ 0 ∧
          s.overtimeMode = OvertimeMode.STOP) →
        (tick s now).1.timeLeft = s.timeLeft - (now - s.lastTick).fdiv 1000 ∧
        (tick s now).1.status = Status.RUNNING ∧
        (tick s now).1.scheduled = true)) ∧
    ((now - s.lastTick).fdiv 1000 < 1 → tick s now = (s, false)) ∧
    (s.overtimeMode = OvertimeMode.COUNT_UP → 1 ≤ (now - s.lastTick).fdiv 1000 →
      (tick s now).1.timeLeft = s.timeLeft - (now - s.lastTick).fdiv 1000 ∧
      (tick s now).1.status = Status.RUNNING) := by
  rw [tick_eq s now hr]
  refine ⟨?_, ?_, ?_⟩
  · intro h1
    rw [if_pos h1]
    by_cases h2 : s.timeLeft - (now - s.lastTick).fdiv 1000 ≤ 0 ∧
        s.overtimeMode = OvertimeMode.STOP
    · rw [if_pos h2]
      exact ⟨rfl, rfl, fun _ => ⟨rfl, rfl, rfl⟩, fun hc => absurd h2 hc⟩
    · rw [if_neg h2]
      exact ⟨rfl, rfl, fun hc => absurd hc h2, fun _ => ⟨rfl, hr, rfl⟩⟩
  · intro h1
    rw [if_neg (by omega), set_scheduled_true_eq s hs]
  · intro hm h1
    rw [if_pos h1, if_neg (by simp [hm])]
    exact ⟨rfl, hr⟩

/-- Witness for `tick_running_spec`: a `RUNNING` state with `timeLeft = 1` in
`STOP` mode, ticked 2500 ms later, finishes at `timeLeft = 0`. -/
theorem tick_running_spec_witness :
    (⟨1, Status.RUNNING, OvertimeMode.STOP, 0, true⟩ : TimerState).status =
        Status.RUNNING ∧
    (⟨1, Status.RUNNING, OvertimeMode.STOP, 0, true⟩ : TimerState).scheduled = true ∧
    (tick ⟨1, Status.RUNNING, OvertimeMode.STOP, 0, true⟩ 2500).1.status =
        Status.FINISHED ∧
    (tick ⟨1, Status.RUNNING, OvertimeMode.STOP, 0, true⟩ 2500).1.timeLeft = 0 := by
  have h := tick_running_spec ⟨1, Status.RUNNING, OvertimeMode.STOP, 0, true⟩ 2500 rfl rfl
  have h2 := (h.1 (by decide)).2.2.1 (by decide)
  exact ⟨rfl, rfl, h2.1, h2.2.1⟩

/-- C4: `start` changes the state — to `status = RUNNING`,
`lastTickTimestamp = now`, with a tick scheduled and a snapshot broadcast —
exactly when `status ≠ RUNNING ∧ (timeLeft ≠ 0 ∨ status = PAUSED)`; otherwise
it is a no-op with no state change, no snapshot and no error; in particular
it is a no-op when `timeLeft = 0` and `status = IDLE`. -/
theorem start_spec (s : TimerState) (now : Int) :
    ((s.status ≠ Status.RUNNING ∧ (s.timeLeft ≠ 0 ∨ s.status = Status.PAUSED)) →
      (start s now).1.status = Status.RUNNING ∧
      (start s now).1.lastTick = now ∧
      (start s now).1.scheduled = true ∧
      (start s now).2 = true ∧
      (start s now).1 ≠ s) ∧
    (¬(s.status ≠ Status.RUNNING ∧ (s.timeLeft ≠ 0 ∨ s.status = Status.PAUSED)) →
      start s now = (s, false)) ∧
    (s.timeLeft = 0 ∧ s.status = Status.IDLE → start s now = (s, false)) := by
  refine ⟨?_, ?_, ?_⟩
  · intro hg
    rw [start, if_pos hg]
    refine ⟨rfl, rfl, ?_, rfl, ?_⟩
    · cases hsch : s.scheduled <;> simp [hsch]
    · intro hEq
      exact hg.1 (by rw [← hEq])
  · intro hg
    rw [start, if_neg hg]
  · rintro ⟨hz, hi⟩
    rw [start, if_neg]
    rintro ⟨-, h0 | hp⟩
    · exact h0 hz
    · rw [hi] at hp
      cases hp
/-- Witness for `start_spec`: from the freshly started process
(`timeLeft = 0`, `status = IDLE`), `start` is a no-op. -/
theorem start_spec_witness :
    (initialState 0).timeLeft = 0 ∧ (initialState 0).status = Status.IDLE ∧
    start (initialState 0) 5 = (initialState 0, false) :=
  ⟨rfl, rfl, (start_spec (initialState 0) 5).2.2 ⟨rfl, rfl⟩⟩

/-- C9: a `set-time`, `set-and-start` or `set-mode` command whose payload is
malformed (wrong type, non-finite number, or a mode other than
`COUNT_UP`/`STOP`) is silently dropped — the state is unchanged and no
snapshot is broadcast — while an out-of-range finite number is accepted and
clamped into `[-5999, 5999]` rather than rejected. -/
theorem invalid_payload_dropped (s : TimerState) (v : JsValue) (now : Int) :
    (isFiniteNumber v = false →
      setTime s v = (s, false) ∧ setAndStart s v now = (s, false)) ∧
    (v ≠ JsValue.str "COUNT_UP" → v ≠ JsValue.str "STOP" →
      setMode s v = (s, false)) ∧
    (∀ q : ℚ, (setTime s (JsValue.num q)).2 = true ∧
      -5999 ≤ (setTime s (JsValue.num q)).1.timeLeft ∧
      (setTime s (JsValue.num q)).1.timeLeft ≤ 5999) := by
  refine ⟨?_, ?_, ?_⟩
  · intro hv
    cases v <;> first
      | exact ⟨rfl, rfl⟩
      | exact absurd hv (by simp [isFiniteNumber])
  · intro h1 h2
    rw [setMode, if_neg h1, if_neg h2]
  · intro q
    refine ⟨rfl, ?_, ?_⟩
    · show -5999 ≤ max (-5999) (min 5999 (jsRound q))
      exact le_max_left _ _
    · show max (-5999) (min 5999 (jsRound q)) ≤ 5999
      exact max_le (by norm_num) (min_le_left _ _)

/-- Witness for `invalid_payload_dropped`: the non-finite number `NaN` is
dropped by `set-time` and `set-and-start`, and dropped by `set-mode`. -/
theorem invalid_payload_dropped_witness :
    isFiniteNumber JsValue.nan = false ∧
    setTime (initialState 0) JsValue.nan = (initialState 0, false) ∧
    setAndStart (initialState 0) JsValue.nan 5 = (initialState 0, false) ∧
    setMode (initialState 0) JsValue.nan = (initialState 0, false) := by
  have h := invalid_payload_dropped (initialState 0) JsValue.nan 5
  exact ⟨rfl, (h.1 rfl).1, (h.1 rfl).2, h.2.1 (by decide) (by decide)⟩

/-- C6: in every reachable state, the status is `RUNNING` exactly when the
(unique) tick timeout is pending — every transition out of `RUNNING` cancels
it, `start` and `setAndStart` arm it, and since a single `timerInterval`
handle holds it, no second tick stream can ever be active. -/
theorem running_iff_scheduled (s : TimerState) (h : Reachable s) :
    s.status = Status.RUNNING ↔ s.scheduled = true := by
  induction h with
  | init t0 => simp [initialState]
  | next s e now hs htick ih =>
    cases e with
    | setTime v =>
      cases v <;> simp_all [step, setTime]
    | start =>
      show (start s now).1.status = Status.RUNNING ↔ (start s now).1.scheduled = true
      by_cases hg : s.status ≠ Status.RUNNING ∧ (s.timeLeft ≠ 0 ∨ s.status = Status.PAUSED)
      · rw [start, if_pos hg]
        cases hsch : s.scheduled <;> simp [hsch]
      · rw [start, if_neg hg]
        exact ih
    | pause =>
      show (pause s).1.status = Status.RUNNING ↔ (pause s).1.scheduled = true
      simp [pause]
    | stop =>
      show (stop s).1.status = Status.RUNNING ↔ (stop s).1.scheduled = true
      simp [stop]
    | setMode v =>
      show (setMode s v).1.status = Status.RUNNING ↔ (setMode s v).1.scheduled = true
      rw [setMode]
      split_ifs <;> exact ih
    | setAndStart v =>
      cases v <;> simp_all [step, setAndStart]
    | tickFire =>
      have hsch := htick rfl
      have hr : s.status = Status.RUNNING := ih.mpr hsch
      show (tick s now).1.status = Status.RUNNING ↔ (tick s now).1.scheduled = true
      rw [tick_eq s now hr]
      by_cases h1 : 1 ≤ (now - s.lastTick).fdiv 1000
      · by_cases h2 : s.timeLeft - (now - s.lastTick).fdiv 1000 ≤ 0 ∧
            s.overtimeMode = OvertimeMode.STOP
        · rw [if_pos h1, if_pos h2]
          simp
        · rw [if_pos h1, if_neg h2]
          simp [hr]
      · rw [if_neg h1]
        simp [hr]

/-- Witness for `running_iff_scheduled`: the initial state is reachable, is
not `RUNNING`, and has no tick pending. -/
theorem running_iff_scheduled_witness :
    Reachable (initialState 0) ∧
      ((initialState 0).status = Status.RUNNING ↔
        (initialState 0).scheduled = true) :=
  ⟨Reachable.init 0, running_iff_scheduled (initialState 0) (Reachable.init 0)⟩

/-- In every reachable state, `FINISHED` implies `timeLeft = 0`: the only
transition into `FINISHED` (in `tick`) clamps `timeLeft` to `0`. -/
lemma finished_timeLeft_zero (s : TimerState) (h : Reachable s) :
    s.status = Status.FINISHED → s.timeLeft = 0 := by
  induction h with
  | init t0 => simp [initialState]
  | next s e now hs htick ih =>
    cases e with
    | setTime v =>
      cases v <;> simp_all [step, setTime]
    | start =>
      show (start s now).1.status = Status.FINISHED → (start s now).1.timeLeft = 0
      by_cases hg : s.status ≠ Status.RUNNING ∧ (s.timeLeft ≠ 0 ∨ s.status = Status.PAUSED)
      · rw [start, if_pos hg]
        intro hf
        cases hf
      · rw [start, if_neg hg]
        exact ih
    | pause =>
      show (pause s).1.status = Status.FINISHED → (pause s).1.timeLeft = 0
      simp [pause]
    | stop =>
      show (stop s).1.status = Status.FINISHED → (stop s).1.timeLeft = 0
      simp [stop]
    | setMode v =>
      show (setMode s v).1.status = Status.FINISHED → (setMode s v).1.timeLeft = 0
      rw [setMode]
      split_ifs <;> exact ih
    | setAndStart v =>
      cases v <;> simp_all [step, setAndStart]
    | tickFire =>
      by_cases hr : s.status = Status.RUNNING
      · show (tick s now).1.status = Status.FINISHED → (tick s now).1.timeLeft = 0
        rw [tick_eq s now hr]
        by_cases h1 : 1 ≤ (now - s.lastTick).fdiv 1000
        · by_cases h2 : s.timeLeft - (now - s.lastTick).fdiv 1000 ≤ 0 ∧
              s.overtimeMode = OvertimeMode.STOP
          · rw [if_pos h1, if_pos h2]
            intro _
            rfl
          · rw [if_pos h1, if_neg h2]
            simp [hr]
        · rw [if_neg h1]
          simp [hr]
      · have ht : (step s Event.tickFire now).1 = { s with scheduled := false } := by
          simp [step, tick, hr]
        rw [ht]
        exact ih

/-! ## Concrete traces used by the counterexamples and witnesses -/

/-- From the start state, `set-mode "STOP"` yields `STOP` mode, still idle. -/
lemma trace_setMode_stop :
    step (initialState 0) (Event.setMode (JsValue.str "STOP")) 0 =
      (⟨0, Status.IDLE, OvertimeMode.STOP, 0, false⟩, true) := by
  simp [step, setMode, initialState]

/-- `set-time (-5)` stores `-5` (in range, so unclamped). -/
lemma trace_setTime_neg5 :
    step (⟨0, Status.IDLE, OvertimeMode.STOP, 0, false⟩ : TimerState)
      (Event.setTime (JsValue.num (-5))) 0 =
      (⟨-5, Status.IDLE, OvertimeMode.STOP, 0, false⟩, true) := by
  have h : jsRound (-5) = -5 := by norm_num [jsRound]
  simp [step, setTime, clampSeconds, h]

/-- `start` at instant 7 of the idle `-5`-second timer passes the guard
(`timeLeft ≠ 0`) and enters `RUNNING`. -/
lemma trace_start_neg5 :
    step (⟨-5, Status.IDLE, OvertimeMode.STOP, 0, false⟩ : TimerState)
      Event.start 7 =
      (⟨-5, Status.RUNNING, OvertimeMode.STOP, 7, true⟩, true) := by
  decide

/-- `set-and-start 1` stores one second and enters `RUNNING`. -/
lemma trace_setAndStart_one :
    step (⟨0, Status.IDLE, OvertimeMode.STOP, 0, false⟩ : TimerState)
      (Event.setAndStart (JsValue.num 1)) 0 =
      (⟨1, Status.RUNNING, OvertimeMode.STOP, 0, true⟩, true) := by
  have h : jsRound 1 = 1 := by norm_num [jsRound]
  simp [step, setAndStart, clampSeconds, h]

/-- The tick firing two seconds later exhausts the one-second `STOP`-mode
timer: `FINISHED` with `timeLeft = 0` and no reschedule. -/
lemma trace_tick_finish :
    step (⟨1, Status.RUNNING, OvertimeMode.STOP, 0, true⟩ : TimerState)
      Event.tickFire 2000 =
      (⟨0, Status.FINISHED, OvertimeMode.STOP, 2000, false⟩, true) := by
  decide

/-- The state reached by `set-mode "STOP"`, `set-time (-5)`, `start` is a
reachable state in the supposedly forbidden combination. -/
lemma reachable_overtime_combo :
    Reachable (⟨-5, Status.RUNNING, OvertimeMode.STOP, 7, true⟩ : TimerState) := by
  have h1 := Reachable.next _ (Event.setMode (JsValue.str "STOP")) 0
    (Reachable.init 0) nofun
  rw [trace_setMode_stop] at h1
  have h2 := Reachable.next _ (Event.setTime (JsValue.num (-5))) 0 h1 nofun
  rw [trace_setTime_neg5] at h2
  have h3 := Reachable.next _ Event.start 7 h2 nofun
  rw [trace_start_neg5] at h3
  exact h3

/-- The state reached by `set-mode "STOP"`, `set-and-start 1`, tick at
`+2000 ms`: a reachable `FINISHED` state. -/
lemma reachable_finished :
    Reachable (⟨0, Status.FINISHED, OvertimeMode.STOP, 2000, false⟩ : TimerState) := by
  have h1 := Reachable.next _ (Event.setMode (JsValue.str "STOP")) 0
    (Reachable.init 0) nofun
  rw [trace_setMode_stop] at h1
  have h2 := Reachable.next _ (Event.setAndStart (JsValue.num 1)) 0 h1 nofun
  rw [trace_setAndStart_one] at h2
  have h3 := Reachable.next _ Event.tickFire 2000 h2 (fun _ => rfl)
  rw [trace_tick_finish] at h3
  exact h3

/-- C2 counterexample: the commands `setMode STOP`, `setTime (-5)`, `start`
(at instants 0, 0, 7) reach a state with `overtimeMode = STOP`,
`remainingSeconds = -5 ≤ 0` and `status = RUNNING` — the combination the
claim says is unreachable — and that state is not `FINISHED` with
`remainingSeconds = 0`. -/
theorem overtime_combo_is_reachable :
    Reachable (⟨-5, Status.RUNNING, OvertimeMode.STOP, 7, true⟩ : TimerState) ∧
    (⟨-5, Status.RUNNING, OvertimeMode.STOP, 7, true⟩ : TimerState).overtimeMode =
      OvertimeMode.STOP ∧
    (⟨-5, Status.RUNNING, OvertimeMode.STOP, 7, true⟩ : TimerState).timeLeft ≤ 0 ∧
    (⟨-5, Status.RUNNING, OvertimeMode.STOP, 7, true⟩ : TimerState).status =
      Status.RUNNING ∧
    (⟨-5, Status.RUNNING, OvertimeMode.STOP, 7, true⟩ : TimerState).status ≠
      Status.FINISHED :=
  ⟨reachable_overtime_combo, rfl, by decide, rfl, by decide⟩

/-- C2 amended: commands can create the combination
`overtimeMode = STOP ∧ remainingSeconds ≤ 0 ∧ status = RUNNING` (see the
counterexample), but a tick never leaves it behind: any tick that fires on a
`RUNNING` `STOP`-mode state and observes `elapsed ≥ 1` ends either
`FINISHED` with `remainingSeconds = 0`, or still `RUNNING` with
`remainingSeconds > 0`. -/
theorem tick_resolves_overtime_stop (s : TimerState) (now : Int)
    (hr : s.status = Status.RUNNING) (hm : s.overtimeMode = OvertimeMode.STOP)
    (he : 1 ≤ (now - s.lastTick).fdiv 1000) :
    ((tick s now).1.status = Status.FINISHED ∧ (tick s now).1.timeLeft = 0) ∨
    ((tick s now).1.status = Status.RUNNING ∧ 0 < (tick s now).1.timeLeft) := by
  rw [tick_eq s now hr, if_pos he]
  by_cases h2 : s.timeLeft - (now - s.lastTick).fdiv 1000 ≤ 0
  · left
    rw [if_pos ⟨h2, hm⟩]
    exact ⟨rfl, rfl⟩
  · right
    rw [if_neg (fun hc => h2 hc.1)]
    refine ⟨hr, ?_⟩
    show 0 < s.timeLeft - (now - s.lastTick).fdiv 1000
    omega

/-- Witness for `tick_resolves_overtime_stop`: the one-second `STOP`-mode
running timer ticked 2500 ms later satisfies the hypotheses, and the
conclusion holds there. -/
theorem tick_resolves_overtime_stop_witness :
    (⟨1, Status.RUNNING, OvertimeMode.STOP, 0, true⟩ : TimerState).status =
        Status.RUNNING ∧
    (⟨1, Status.RUNNING, OvertimeMode.STOP, 0, true⟩ : TimerState).overtimeMode =
        OvertimeMode.STOP ∧
    (1 : Int) ≤ ((2500 : Int) -
        (⟨1, Status.RUNNING, OvertimeMode.STOP, 0, true⟩ : TimerState).lastTick).fdiv 1000 ∧
    (((tick ⟨1, Status.RUNNING, OvertimeMode.STOP, 0, true⟩ 2500).1.status =
          Status.FINISHED ∧
        (tick ⟨1, Status.RUNNING, OvertimeMode.STOP, 0, true⟩ 2500).1.timeLeft = 0) ∨
      ((tick ⟨1, Status.RUNNING, OvertimeMode.STOP, 0, true⟩ 2500).1.status =
          Status.RUNNING ∧
        0 < (tick ⟨1, Status.RUNNING, OvertimeMode.STOP, 0, true⟩ 2500).1.timeLeft)) :=
  ⟨rfl, rfl, by decide,
    tick_resolves_overtime_stop ⟨1, Status.RUNNING, OvertimeMode.STOP, 0, true⟩ 2500
      rfl rfl (by decide)⟩

/-- C7 counterexample: `pause` is an operation other than `stop`, `setTime`
and `setAndStart`, yet from a reachable `FINISHED` state it changes the
status to `PAUSED` (the handler sets `status = 'PAUSED'` unconditionally). -/
theorem finished_changed_by_pause :
    Reachable (⟨0, Status.FINISHED, OvertimeMode.STOP, 2000, false⟩ : TimerState) ∧
    (⟨0, Status.FINISHED, OvertimeMode.STOP, 2000, false⟩ : TimerState).status =
      Status.FINISHED ∧
    (step (⟨0, Status.FINISHED, OvertimeMode.STOP, 2000, false⟩ : TimerState)
        Event.pause 2500).1.status = Status.PAUSED ∧
    Status.PAUSED ≠ Status.FINISHED :=
  ⟨reachable_finished, rfl, rfl, by decide⟩

/-- C7 amended: from a reachable `FINISHED` state, the status is changed only
by `stop`, `pause`, or a `setTime`/`setAndStart` carrying a valid finite
number; `start`, `setMode` (any payload), a tick firing, and `setTime`/
`setAndStart` with malformed payloads all leave the status `FINISHED`. -/
theorem finished_terminal_amended (s : TimerState) (now : Int)
    (h : Reachable s) (hf : s.status = Status.FINISHED) :
    (step s Event.start now).1.status = Status.FINISHED ∧
    (∀ v, (step s (Event.setMode v) now).1.status = Status.FINISHED) ∧
    (step s Event.tickFire now).1.status = Status.FINISHED ∧
    (∀ v, isFiniteNumber v = false →
      (step s (Event.setTime v) now).1.status = Status.FINISHED ∧
      (step s (Event.setAndStart v) now).1.status = Status.FINISHED) := by
  have hz : s.timeLeft = 0 := finished_timeLeft_zero s h hf
  refine ⟨?_, ?_, ?_, ?_⟩
  · show (start s now).1.status = Status.FINISHED
    rw [start, if_neg]
    · exact hf
    · rintro ⟨-, hne | hp⟩
      · exact hne hz
      · rw [hf] at hp
        cases hp
  · intro v
    show (setMode s v).1.status = Status.FINISHED
    rw [setMode]
    split_ifs <;> exact hf
  · show (tick s now).1.status = Status.FINISHED
    simp [tick, hf]
  · intro v hv
    cases v <;> first
      | exact ⟨hf, hf⟩
      | exact absurd hv (by simp [isFiniteNumber])

/-- Witness for `finished_terminal_amended`: on the concrete reachable
`FINISHED` state, `start`, `set-mode "COUNT_UP"` and a tick firing all leave
the status `FINISHED`. -/
theorem finished_terminal_amended_witness :
    Reachable (⟨0, Status.FINISHED, OvertimeMode.STOP, 2000, false⟩ : TimerState) ∧
    (⟨0, Status.FINISHED, OvertimeMode.STOP, 2000, false⟩ : TimerState).status =
      Status.FINISHED ∧
    (step (⟨0, Status.FINISHED, OvertimeMode.STOP, 2000, false⟩ : TimerState)
        Event.start 3000).1.status = Status.FINISHED ∧
    (step (⟨0, Status.FINISHED, OvertimeMode.STOP, 2000, false⟩ : TimerState)
        (Event.setMode (JsValue.str "COUNT_UP")) 3000).1.status = Status.FINISHED ∧
    (step (⟨0, Status.FINISHED, OvertimeMode.STOP, 2000, false⟩ : TimerState)
        Event.tickFire 3000).1.status = Status.FINISHED := by
  have h := finished_terminal_amended
    ⟨0, Status.FINISHED, OvertimeMode.STOP, 2000, false⟩ 3000 reachable_finished rfl
  exact ⟨reachable_finished, rfl, h.1, h.2.1 (JsValue.str "COUNT_UP"), h.2.2.1⟩

end SunStopTimer
